import Mathlib

/-!
Verification of the reconciliation-and-upload pipeline of the
`amazon-s3-backup` Home Assistant add-on
(`rootfs/usr/bin/amazon-s3-backup.py` and its `supervisorapi.py` helper).

The Python program is shallowly embedded: every definition below is a direct
translation of a function or code block of the source.  Effects are made
explicit: log lines become a returned list of `LogEvent`s, calls to the boto3
S3 client become recorded `UploadCall`s together with an injected outcome,
`sys.exit`/fall-through become constructors of `MainOutcome`, and the
unbounded stability-poll `while` loop becomes a fuel-indexed recursion over a
sampled size sequence `sizes : Nat -> Nat` (one sample per unit of
`time.sleep(1)`).
-/

/-- Log severities used by the script via the standard `logging` module
(`logger.debug` / `info` / `warning` / `exception` (= error) / `critical`). -/
inductive LogLevel
  | debug
  | info
  | warning
  | error
  | critical
deriving DecidableEq, Repr

/-- One emitted log line: its level and (an abbreviation of) its message. -/
structure LogEvent where
  level : LogLevel
  msg : String
deriving DecidableEq, Repr

/-- An object of the S3 `list_objects_v2` response `Contents` array
(`Key` / `Size` / `LastModified`). -/
structure S3Object where
  key : String
  size : Nat
  lastModified : Int
deriving DecidableEq, Repr

/-- The part of the `list_objects_v2` response read by `S3Bucket.list_bucket`:
the `IsTruncated` flag and the `Contents` array. -/
structure S3ListResponse where
  isTruncated : Bool
  contents : List S3Object
deriving DecidableEq, Repr

/-- The dictionaries built by `S3Bucket.list_bucket`:
`{"name": obj.get("Key"), "size": obj.get("Size"), "last_modified": ...}`. -/
structure RemoteObject where
  name : String
  size : Nat
  last_modified : Int
deriving DecidableEq, Repr

/-- `S3Bucket.list_bucket`.  The argument is the outcome of the
`list_objects_v2` call: `.error ()` stands for the caught `NoSuchBucket`
exception (logged via `logger.exception`, then `raise Exception`), `.ok r`
for a delivered response.  On `IsTruncated == True` the code only logs a
warning and still returns the (partial) mapped `Contents` list. -/
def list_bucket (resp : Except Unit S3ListResponse) :
    List LogEvent × Except Unit (List RemoteObject) :=
  match resp with
  | .error () =>
      ([⟨.error, "Error listing objects in S3 bucket"⟩], .error ())
  | .ok r =>
      let logs : List LogEvent :=
        if r.isTruncated = true then
          [⟨.warning, "received truncated results from S3 list object function"⟩]
        else []
      (logs, .ok (r.contents.map fun o =>
        { name := o.key, size := o.size, last_modified := o.lastModified }))

/-!
## Stability detector (`BackupEventHandler.process`, lines 101-106)

```python
file_size = -1
while file_size != os.path.getsize(event.src_path):
    file_size = os.path.getsize(event.src_path)
    time.sleep(1)
```

`sizes t` is the size `os.path.getsize` returns at time `t`; the two reads
of one iteration (the `while` test and the assignment) happen back to back
and read the same sample, and `time.sleep(1)` advances the time by one.
`file_size` is an `Int` because it starts at `-1`.  The `while` loop has no
bound, so the recursion is indexed by fuel; `pollLoop ... = none` means the
loop is still running after `fuel` iterations, `some t` means it exited at
time `t` (the last two samples, `sizes (t-1)` and `sizes t`, were equal). -/
def pollLoop (sizes : Nat → Nat) : Nat → Int → Nat → Option Nat
  | 0, _, _ => none
  | fuel + 1, file_size, t =>
      if file_size = (sizes t : Int) then some t
      else pollLoop sizes fuel (sizes t) (t + 1)

/-- The poll phase of `BackupEventHandler.process`: run the `while` loop from
`file_size = -1` at time `0`. -/
def stabilityPoll (sizes : Nat → Nat) (fuel : Nat) : Option Nat :=
  pollLoop sizes fuel (-1) 0

/-- Loop invariant, soundness half: if the loop (entered with
`file_size = sizes t` just before sleeping into time `t+1`) exits at time
`u`, then the sample at `u` equals the one at `u-1` and no earlier adjacent
pair of samples from `t` on was equal. -/
theorem pollLoop_sound (sizes : Nat → Nat) :
    ∀ fuel t u, pollLoop sizes fuel (sizes t) (t + 1) = some u →
      t + 1 ≤ u ∧ sizes (u - 1) = sizes u ∧
      ∀ j, t ≤ j → j + 1 < u → sizes j ≠ sizes (j + 1) := by
  intro fuel
  induction fuel with
  | zero => intro t u h; simp [pollLoop] at h
  | succ n ih =>
      intro t u h
      rw [pollLoop] at h
      by_cases heq : (sizes t : Int) = (sizes (t + 1) : Int)
      · rw [if_pos heq] at h
        have hu : u = t + 1 := by exact (Option.some.injEq _ _).mp h.symm
        subst hu
        refine ⟨le_refl _, ?_, ?_⟩
        · simpa using (Int.ofNat_inj.mp heq)
        · intro j hj hjlt h2
          omega
      · rw [if_neg heq] at h
        have := ih (t + 1) u h
        refine ⟨by omega, this.2.1, ?_⟩
        intro j hj hjlt
        rcases Nat.eq_or_lt_of_le hj with hje | hjl
        · subst hje
          intro hcon
          exact heq (by exact_mod_cast hcon)
        · exact this.2.2 j (by omega) hjlt

/-- Loop invariant, divergence half: if adjacent samples from `t` on are
never equal, the loop never exits, whatever the fuel. -/
theorem pollLoop_diverge (sizes : Nat → Nat)
    (hgrow : ∀ k, sizes k ≠ sizes (k + 1)) :
    ∀ fuel t, pollLoop sizes fuel (sizes t) (t + 1) = none := by
  intro fuel
  induction fuel with
  | zero => intro t; simp [pollLoop]
  | succ n ih =>
      intro t
      rw [pollLoop]
      have : ¬ ((sizes t : Int) = (sizes (t + 1) : Int)) := by
        intro h; exact hgrow t (by exact_mod_cast h)
      rw [if_neg this]
      exact ih (t + 1)

/-- Loop invariant, completeness half: if the next `n` adjacent pairs from
`t₀` are unequal and the pair at `t₀ + n` is equal, fuel `n + 1` makes the
loop exit at time `t₀ + n + 1`. -/
theorem pollLoop_complete (sizes : Nat → Nat) :
    ∀ n t₀, (∀ j, t₀ ≤ j → j < t₀ + n → sizes j ≠ sizes (j + 1)) →
      sizes (t₀ + n) = sizes (t₀ + n + 1) →
      pollLoop sizes (n + 1) (sizes t₀) (t₀ + 1) = some (t₀ + n + 1) := by
  intro n
  induction n with
  | zero =>
      intro t₀ _ hstable
      rw [pollLoop]
      rw [if_pos (by exact_mod_cast hstable)]
  | succ m ih =>
      intro t₀ hne hstable
      rw [pollLoop]
      have hne0 : sizes t₀ ≠ sizes (t₀ + 1) := hne t₀ (le_refl _) (by omega)
      rw [if_neg (by intro h; exact hne0 (by exact_mod_cast h))]
      have := ih (t₀ + 1) (fun j hj hjlt => hne j (by omega) (by omega))
        (by rw [show t₀ + 1 + m = t₀ + (m + 1) by omega]
            exact hstable)
      rw [this]
      congr 1
      omega

/-- The first test of the loop compares `-1` with `sizes 0` and always
enters the body, so `stabilityPoll` reduces to `pollLoop` entered at time 1. -/
theorem stabilityPoll_eq (sizes : Nat → Nat) (fuel : Nat) :
    stabilityPoll sizes (fuel + 1) = pollLoop sizes fuel (sizes 0) 1 := by
  rw [stabilityPoll, pollLoop]
  have : ¬ ((-1 : Int) = (sizes 0 : Int)) := by
    intro h
    have := Int.ofNat_nonneg (sizes 0)
    omega
  rw [if_neg this]

/-- C4.  The stability detector never releases a file before two consecutive
sampled size reads (one unit of sleep apart) are equal: whenever the poll
loop signals stable at time `u`, the samples at `u-1` and `u` are equal and
no earlier adjacent pair was (so `u` is the first such position); if adjacent
samples are never equal the loop never exits, whatever the fuel; and as soon
as the first equal adjacent pair `(t, t+1)` exists, fuel `t + 2` suffices to
signal stable at time `t + 1`. -/
theorem stability_detector_first_equal_pair (sizes : Nat → Nat) :
    (∀ fuel u, stabilityPoll sizes fuel = some u →
        1 ≤ u ∧ sizes (u - 1) = sizes u ∧
        ∀ j, j + 1 < u → sizes j ≠ sizes (j + 1)) ∧
    (∀ fuel, (∀ k, sizes k ≠ sizes (k + 1)) → stabilityPoll sizes fuel = none) ∧
    (∀ t, sizes t = sizes (t + 1) → (∀ j, j < t → sizes j ≠ sizes (j + 1)) →
        stabilityPoll sizes (t + 2) = some (t + 1)) := by
  refine ⟨?_, ?_, ?_⟩
  · intro fuel u h
    match fuel with
    | 0 => simp [stabilityPoll, pollLoop] at h
    | n + 1 =>
        rw [stabilityPoll_eq] at h
        have := pollLoop_sound sizes n 0 u (by simpa using h)
        exact ⟨by omega, this.2.1, fun j hj => this.2.2 j (by omega) hj⟩
  · intro fuel hgrow
    match fuel with
    | 0 => simp [stabilityPoll, pollLoop]
    | n + 1 =>
        rw [stabilityPoll_eq]
        simpa using pollLoop_diverge sizes hgrow n 0
  · intro t hstable hfirst
    rw [show t + 2 = (t + 1) + 1 by omega, stabilityPoll_eq]
    have := pollLoop_complete sizes t 0 (fun j _ hj => hfirst j (by omega))
      (by simpa using hstable)
    simpa using this

/-- Witness for C4 at concrete inputs: the sample sequence
`0,1,2,3,3,3,...` is released exactly at time 4 (first equal adjacent pair),
and the strictly growing sequence `id` is never released. -/
theorem stability_detector_first_equal_pair_witness :
    stabilityPoll (fun k => min k 3) 5 = some 4 ∧
    stabilityPoll (fun k => k) 7 = none ∧
    (1 ≤ 4 ∧ (fun k => min k 3) 3 = (fun k => min k 3) 4 ∧
      ∀ j, j + 1 < 4 → (fun k => min k 3) j ≠ (fun k => min k 3) (j + 1)) := by
  have h1 := (stability_detector_first_equal_pair (fun k => min k 3)).2.2 3
    (by decide) (by decide)
  have h2 := (stability_detector_first_equal_pair (fun k => k)).2.1 7
    (fun k => by omega)
  have h3 := (stability_detector_first_equal_pair (fun k => min k 3)).1 5
    4 (by exact h1)
  exact ⟨h1, h2, h3⟩

/-!
## Uploads (`S3Bucket.upload_file`, lines 58-76)

`Path(file).name` is the base name of the path, used as the S3 `Key`.
-/

/-- Auxiliary scan of `Path(...).name`: keep the characters seen since the
last path separator. -/
def baseNameAux (acc : List Char) : List Char → List Char
  | [] => acc
  | c :: cs => if c = '/' then baseNameAux [] cs else baseNameAux (acc ++ [c]) cs

/-- `pathlib.Path(file).name`: the final component of a slash-separated
path. -/
def baseName (s : String) : String := ⟨baseNameAux [] s.data⟩

/-- `pathlib.Path(dir, file)` / `str(Path(obj_monitor_path, file))`: joining
a directory with a relative file name inserts one separator. -/
def pathJoin (d f : String) : String := d ++ "/" ++ f

/-- One call to `self.s3_client.upload_file(Filename=file, Bucket=...,
Key=file_name, ...)`: the local path passed and the S3 key used, where
`file_name = Path(file).name`. -/
structure UploadCall where
  path : String
  key : String
deriving DecidableEq, Repr

/-- Outcome of the boto3 `upload_file` call: it returns, raises the
`boto3.exceptions.S3UploadFailedError` the code catches, or raises some
other exception the code does not catch. -/
inductive UploadOutcome
  | success
  | s3UploadFailedError
  | otherException
deriving DecidableEq, Repr

/-- `S3Bucket.upload_file`.  Returns the log lines emitted, the S3 call made
(with `Key = Path(file).name`), and whether an exception escaped: the
`except boto3.exceptions.S3UploadFailedError` clause logs
(`logger.exception`, level error) and falls off the end of the function, so
only an unanticipated exception propagates to the caller. -/
def upload_file (file : String) (o : UploadOutcome) :
    List LogEvent × UploadCall × Except Unit Unit :=
  let file_name := baseName file
  let call : UploadCall := ⟨file, file_name⟩
  match o with
  | .success =>
      ([⟨.info, "Uploading file to S3"⟩, ⟨.info, "Uploaded file to S3 bucket"⟩],
       call, .ok ())
  | .s3UploadFailedError =>
      ([⟨.info, "Uploading file to S3"⟩, ⟨.error, "S3 upload error"⟩],
       call, .ok ())
  | .otherException =>
      ([⟨.info, "Uploading file to S3"⟩], call, .error ())

/-!
## Startup reconciliation (`__main__`, lines 196-212)

```python
for file in local_files:
    local_file = Path(obj_monitor_path, file)
    local_file_size = local_file.stat().st_size
    found = [f for f in bucket_contents if f.get("name") == file]
    if found:
        if local_file_size == found[0]["size"]: logger.debug(...)
        else: logger.warning(...); s3_bucket.upload_file(str(local_file))
    else:
        logger.warning(...)
        if upload_missing_files: s3_bucket.upload_file(str(local_file))
```

`sizeOf p` is what `Path(p).stat().st_size` returns at reconciliation time,
and `outcomes p` the outcome of the S3 upload call for path `p`.
-/

/-- The body of the reconciliation `for` loop, for one local file name. -/
def reconcileStep (bucket_contents : List RemoteObject) (upload_missing_files : Bool)
    (outcomes : String → UploadOutcome) (sizeOf : String → Nat)
    (obj_monitor_path : String) (file : String) :
    List LogEvent × List UploadCall × Except Unit Unit :=
  let local_file := pathJoin obj_monitor_path file
  let local_file_size := sizeOf local_file
  let found := bucket_contents.filter (fun f => f.name == file)
  match found with
  | fst :: _ =>
      if local_file_size = fst.size then
        ([⟨.debug, "Local file found in S3 with matching size"⟩], [], .ok ())
      else
        let (l, call, exc) := upload_file local_file (outcomes local_file)
        (⟨.warning, "Local file does not match the file in S3"⟩ :: l, [call], exc)
  | [] =>
      if upload_missing_files then
        let (l, call, exc) := upload_file local_file (outcomes local_file)
        (⟨.warning, "Local file not found in S3"⟩ :: l, [call], exc)
      else
        ([⟨.warning, "Local file not found in S3"⟩], [], .ok ())

/-- The whole reconciliation `for` loop.  An exception escaping one
iteration (only possible for an unanticipated upload error) aborts the rest
of the loop, as an uncaught Python exception would. -/
def reconcileAll (bucket_contents : List RemoteObject) (upload_missing_files : Bool)
    (outcomes : String → UploadOutcome) (sizeOf : String → Nat)
    (obj_monitor_path : String) :
    List String → List LogEvent × List UploadCall × Except Unit Unit
  | [] => ([], [], .ok ())
  | file :: rest =>
      let (l, c, exc) := reconcileStep bucket_contents upload_missing_files
        outcomes sizeOf obj_monitor_path file
      match exc with
      | .error e => (l, c, .error e)
      | .ok () =>
          let (l2, c2, exc2) := reconcileAll bucket_contents upload_missing_files
            outcomes sizeOf obj_monitor_path rest
          (l ++ l2, c ++ c2, exc2)

/-- `upload_missing_files = True if upload_missing_files.lower() == "true"
else False` (line 182). -/
def parseUploadMissingFiles (s : String) : Bool := s.toLower == "true"

/-- One entry returned by `Path.iterdir()` on the monitored directory:
its name and whether `is_file()` holds. -/
structure DirEntry where
  name : String
  isFile : Bool
deriving DecidableEq, Repr

/-- `local_files = [x.name for x in obj_monitor_path.iterdir() if
x.is_file()]` (lines 193-194): every immediate regular file, with no filter
on the extension. -/
def localFilesOf (entries : List DirEntry) : List String :=
  (entries.filter (fun e => e.isFile)).map (fun e => e.name)

/-!
## Watch loop (`BackupEventHandler`, `FileWatcher`, lines 79-147)
-/

/-- The handler regex `BACKUP_REGEX = [r".+\.tar$"]`, applied by
`RegexMatchingEventHandler` to the event path: one or more characters
followed by the literal `.tar` at the end of the string (paths contain no
newline, so the `.`/`$` newline subtleties of the Python `re` module do not
arise).  Encoded on the reversed character list: the path must end in
`.tar` preceded by at least one character. -/
def matchesBackupRegex (s : String) : Bool :=
  match s.data.reverse with
  | 'r' :: 'a' :: 't' :: '.' :: _ :: _ => true
  | _ => false

/-- Dispatch of one filesystem creation event, as
`RegexMatchingEventHandler.dispatch` + `BackupEventHandler.on_created` +
`process`: an event whose path does not match the regex is dropped by the
base-class dispatch (no poll, no upload); a matching event runs the
stability poll and then calls `upload_file` once.  `none` means the handler
is still inside the poll loop after `fuel` samples; `some (calls, exc)`
means it returned, having made the S3 calls `calls`. -/
def dispatchCreated (sizes : Nat → Nat) (o : UploadOutcome) (fuel : Nat)
    (src_path : String) : Option (List UploadCall × Except Unit Unit) :=
  if matchesBackupRegex src_path then
    match stabilityPoll sizes fuel with
    | none => none
    | some _ =>
        let (_, call, exc) := upload_file src_path o
        some ([call], exc)
  else some ([], .ok ())

/-- The arguments `FileWatcher.schedule` passes to
`Observer.schedule(self.event_handler, self.monitor_path, recursive=True)`. -/
structure ScheduleArgs where
  path : String
  recursive : Bool
deriving DecidableEq, Repr

/-- `FileWatcher.schedule` (lines 142-147): subscribes the handler on the
monitored path with `recursive=True`. -/
def FileWatcher.schedule (monitor_path : String) : ScheduleArgs :=
  ⟨monitor_path, true⟩

/-!
## Process driver (`__main__`, lines 174-217)
-/

/-- How the `__main__` block ends: `sys.exit(1)`, falling off the end of the
script without an explicit exit code (wrong argument count, or missing
monitor path), an uncaught exception, or reaching the pipeline (reconciled
uploads made, then the watch subscription started). -/
inductive MainOutcome
  | exitCode (n : Nat)
  | fellThrough
  | uncaught
  | pipeline (calls : List UploadCall) (watch : ScheduleArgs)
deriving DecidableEq, Repr

/-- The environment `__main__` runs in: `sys.argv` (element 0 is the script
name), whether `Path(monitor_path).exists()`, the outcome of the
`list_objects_v2` call, the entries of `Path(monitor_path).iterdir()`, the
sizes `stat().st_size` reports at reconciliation time, and the outcomes of
the S3 upload calls. -/
structure Env where
  argv : List String
  monitorPathExists : Bool
  listResponse : Except Unit S3ListResponse
  dirEntries : List DirEntry
  sizeOf : String → Nat
  outcomes : String → UploadOutcome

/-- The `__main__` block (lines 174-217): argument-count check (six
`sys.argv` entries: the script name plus five positional arguments), flag
parsing, monitor-path check, bucket listing with `sys.exit(1)` on failure,
the reconciliation loop, and the start of the watch subscription. -/
def amazonS3BackupMain (env : Env) : List LogEvent × MainOutcome :=
  if env.argv.length ≠ 6 then
    ([⟨.critical, "Incorrect number of command line arguments provided"⟩],
     .fellThrough)
  else
    let monitor_path := env.argv.getD 1 ""
    let upload_missing_files := parseUploadMissingFiles (env.argv.getD 5 "")
    if env.monitorPathExists then
      match list_bucket env.listResponse with
      | (l, .error _) => (l, .exitCode 1)
      | (l, .ok bucket_contents) =>
          let local_files := localFilesOf env.dirEntries
          let (l2, calls, exc) := reconcileAll bucket_contents
            upload_missing_files env.outcomes env.sizeOf monitor_path local_files
          match exc with
          | .error _ => (l ++ l2, .uncaught)
          | .ok () =>
              (l ++ l2 ++ [⟨.info, "Monitoring path for new snapshots"⟩],
               .pipeline calls (FileWatcher.schedule monitor_path))
    else
      ([⟨.critical, "monitor_path does not exist"⟩], .fellThrough)

/-!
## Supervisor API (`supervisorapi.py`)

A tiny model of the Python values the client manipulates: JSON values plus
the Python `None` that `dict.get` defaults to, and the two exception kinds
that can escape the public methods (`SupervisorAPIError` raised by
`_get`/`_post`, and the `AttributeError` Python raises when `.get` is
invoked on `None` or any other value with no such method).
-/

/-- A decoded JSON value (`.null` doubles as the Python `None`). -/
inductive JVal
  | null
  | bool (b : Bool)
  | num (n : Int)
  | str (s : String)
  | arr (xs : List JVal)
  | obj (fields : List (String × JVal))

/-- An exception escaping a `SupervisorAPI` method. -/
inductive PyExc
  | supervisorAPIError
  | attributeError
deriving DecidableEq, Repr

/-- A completed HTTP response, as the methods read it: `response.ok`
and the result of `response.json()` (`none` when the body is not valid
JSON, making `response.json()` raise `ValueError`). -/
structure HttpResult where
  ok : Bool
  jsonBody : Option JVal

/-- Outcome of `self.session.get`/`post`: a response, or one of the
transport exceptions the code catches. -/
inductive Transport
  | response (r : HttpResult)
  | connectionError
  | timeout

/-- `SupervisorAPI._get` (lines 35-53): transport exceptions become
`SupervisorAPIError`; otherwise `json` starts as `None`, is decoded only
when `response.ok`, a decode failure raises `SupervisorAPIError`, and the
(possibly still `None`) `json` is returned.  `_post` (lines 55-73) is the
same code on a POST request. -/
def SupervisorAPI.apiGet (t : Transport) : Except PyExc (Option JVal) :=
  match t with
  | .connectionError => .error .supervisorAPIError
  | .timeout => .error .supervisorAPIError
  | .response r =>
      if r.ok then
        match r.jsonBody with
        | none => .error .supervisorAPIError
        | some j => .ok (some j)
      else .ok none

/-- `SupervisorAPI._post`: identical handling (lines 55-73). -/
def SupervisorAPI.apiPost (t : Transport) : Except PyExc (Option JVal) :=
  SupervisorAPI.apiGet t

/-- The Python expression `v.get(k, d)`: on a dict it looks the key up with
a default; on `None` (and on any non-dict value) the attribute access
raises `AttributeError`. -/
def pyDictGet (v : Option JVal) (k : String) (d : JVal) : Except PyExc JVal :=
  match v with
  | some (.obj fields) => .ok (((fields.lookup k).getD d))
  | _ => .error .attributeError

/-- `SupervisorAPI.get_snapshots` (lines 75-82):
`self._get("/snapshots").get("data", {}).get("snapshots", [])`. -/
def SupervisorAPI.get_snapshots (t : Transport) : Except PyExc JVal := do
  let response ← SupervisorAPI.apiGet t
  let d ← pyDictGet response "data" (.obj [])
  pyDictGet (some d) "snapshots" (.arr [])

/-- `SupervisorAPI.get_snapshot` (lines 84-94):
`self._get(f"/snapshots/{slug}/info").get("data")`. -/
def SupervisorAPI.get_snapshot (t : Transport) : Except PyExc JVal := do
  let response ← SupervisorAPI.apiGet t
  pyDictGet response "data" .null

/-- `SupervisorAPI.remove_snapshot` (lines 96-106):
`True if self._post(...).get("result") == "ok" else False`. -/
def SupervisorAPI.remove_snapshot (t : Transport) : Except PyExc Bool := do
  let response ← SupervisorAPI.apiPost t
  let result ← pyDictGet response "result" .null
  pure (match result with
        | .str s => decide (s = "ok")
        | _ => false)

/-!
## Helper lemmas
-/

/-- Scanning characters that contain no separator appends them to the
accumulator. -/
theorem baseNameAux_no_slash : ∀ (l : List Char) (acc : List Char),
    '/' ∉ l → baseNameAux acc l = acc ++ l := by
  intro l
  induction l with
  | nil => intro acc _; simp [baseNameAux]
  | cons c cs ih =>
      intro acc h
      rw [baseNameAux]
      rw [if_neg (by intro hc; exact h (hc ▸ List.mem_cons_self c cs))]
      rw [ih (acc ++ [c]) (fun hm => h (List.mem_cons_of_mem c hm))]
      simp

/-- Everything before the last separator is discarded. -/
theorem baseNameAux_after_slash : ∀ (d : List Char) (acc rest : List Char),
    baseNameAux acc (d ++ '/' :: rest) = baseNameAux [] rest := by
  intro d
  induction d with
  | nil => intro acc rest; simp [baseNameAux]
  | cons c cs ih =>
      intro acc rest
      rw [List.cons_append, baseNameAux]
      by_cases hc : c = '/'
      · rw [if_pos hc]; exact ih [] rest
      · rw [if_neg hc]; exact ih (acc ++ [c]) rest

/-- `Path(Path(d, f)).name = f` whenever the joined component `f` contains
no separator (always the case for a name produced by `iterdir()`). -/
theorem baseName_pathJoin (d f : String) (h : '/' ∉ f.data) :
    baseName (pathJoin d f) = f := by
  obtain ⟨l⟩ := f
  apply String.ext
  show baseNameAux [] (d ++ "/" ++ String.mk l).data = l
  rw [String.data_append, String.data_append]
  have : ("/" : String).data ++ l = '/' :: l := rfl
  rw [List.append_assoc, this, baseNameAux_after_slash]
  simpa using baseNameAux_no_slash l [] h

/-- The head of a non-empty `filter` result is the first satisfying
element: `found[0]` is the first match of the listing. -/
theorem find?_of_filter_cons {α : Type} (p : α → Bool) :
    ∀ (l : List α) (a : α) (r : List α),
      l.filter p = a :: r → l.find? p = some a := by
  intro l
  induction l with
  | nil => intro a r h; simp at h
  | cons x xs ih =>
      intro a r h
      by_cases hp : p x
      · rw [List.filter_cons_of_pos hp] at h
        rw [List.find?_cons_of_pos _ hp]
        exact congrArg some (List.cons.injEq _ _ _ _ ▸ h).1
      · rw [List.filter_cons_of_neg hp] at h
        rw [List.find?_cons_of_neg _ hp]
        exact ih a r h

/-- The S3 call record of `upload_file` does not depend on the outcome of
the boto3 call: path and `Key = Path(file).name` are fixed before it. -/
theorem upload_file_call (file : String) (o : UploadOutcome) :
    (upload_file file o).2.1 = ⟨file, baseName file⟩ := by
  cases o <;> rfl

/-!
## Claims about the startup reconciliation loop
-/

/-- C1.  A local file whose name matches a remote object (the first match of
the listing) of equal size triggers no upload call; the iteration emits only
the single debug-level log line. -/
theorem reconcile_equal_size_no_upload
    (bucket_contents : List RemoteObject) (upload_missing_files : Bool)
    (outcomes : String → UploadOutcome) (sizeOf : String → Nat)
    (d file : String) (fst : RemoteObject) (rest : List RemoteObject)
    (hfound : bucket_contents.filter (fun f => f.name == file) = fst :: rest)
    (hsize : sizeOf (pathJoin d file) = fst.size) :
    reconcileStep bucket_contents upload_missing_files outcomes sizeOf d file =
      ([⟨.debug, "Local file found in S3 with matching size"⟩], [], .ok ()) := by
  rw [reconcileStep]
  simp only [hfound, hsize, if_pos]

/-- Witness for C1: a 100-byte `a.tar` already present remotely at 100
bytes is not uploaded. -/
theorem reconcile_equal_size_no_upload_witness :
    reconcileStep [⟨"a.tar", 100, 0⟩] false (fun _ => .success)
        (fun _ => 100) "/backup" "a.tar" =
      ([⟨.debug, "Local file found in S3 with matching size"⟩], [], .ok ()) :=
  reconcile_equal_size_no_upload [⟨"a.tar", 100, 0⟩] false (fun _ => .success)
    (fun _ => 100) "/backup" "a.tar" ⟨"a.tar", 100, 0⟩ [] (by decide) rfl

/-- C2.  A local file whose name matches a remote object but whose size
differs triggers exactly one upload call, for the joined local path, whose
S3 key is `Path(path).name` — the local file name itself, i.e. the key of
the matched remote object, so the upload overwrites it; and the compared
entry `found[0]` is the first match of the listing. -/
theorem reconcile_size_mismatch_single_upload
    (bucket_contents : List RemoteObject) (upload_missing_files : Bool)
    (outcomes : String → UploadOutcome) (sizeOf : String → Nat)
    (d file : String) (fst : RemoteObject) (rest : List RemoteObject)
    (hfound : bucket_contents.filter (fun f => f.name == file) = fst :: rest)
    (hsize : sizeOf (pathJoin d file) ≠ fst.size) :
    (reconcileStep bucket_contents upload_missing_files outcomes sizeOf d file).2.1 =
        [⟨pathJoin d file, baseName (pathJoin d file)⟩] ∧
    bucket_contents.find? (fun f => f.name == file) = some fst ∧
    ('/' ∉ file.data → baseName (pathJoin d file) = file) := by
  refine ⟨?_, find?_of_filter_cons _ bucket_contents fst rest hfound, ?_⟩
  · rw [reconcileStep]
    simp only [hfound, hsize, if_neg, if_false]
    rw [show (upload_file (pathJoin d file) (outcomes (pathJoin d file))) =
      ((upload_file (pathJoin d file) (outcomes (pathJoin d file))).1,
       (upload_file (pathJoin d file) (outcomes (pathJoin d file))).2.1,
       (upload_file (pathJoin d file) (outcomes (pathJoin d file))).2.2) from rfl]
    simp only [upload_file_call]
  · intro h
    exact baseName_pathJoin d file h

/-- Witness for C2: a 150-byte `a.tar` whose remote copy holds 100 bytes is
re-uploaded once under the key `a.tar`. -/
theorem reconcile_size_mismatch_single_upload_witness :
    (reconcileStep [⟨"a.tar", 100, 0⟩] false (fun _ => .success)
        (fun _ => 150) "/backup" "a.tar").2.1 =
      [⟨pathJoin "/backup" "a.tar", baseName (pathJoin "/backup" "a.tar")⟩] ∧
    ([⟨"a.tar", 100, 0⟩] : List RemoteObject).find?
        (fun f => f.name == "a.tar") = some ⟨"a.tar", 100, 0⟩ ∧
    ('/' ∉ "a.tar".data → baseName (pathJoin "/backup" "a.tar") = "a.tar") :=
  reconcile_size_mismatch_single_upload [⟨"a.tar", 100, 0⟩] false
    (fun _ => .success) (fun _ => 150) "/backup" "a.tar" ⟨"a.tar", 100, 0⟩ []
    (by decide) (by decide)

/-- C3.  A local file with no remote name match is uploaded iff the
missing-files flag holds, the flag is `true` exactly when the fifth
positional argument lowercased equals `"true"` (in `__main__` the flag is
`parseUploadMissingFiles (argv.getD 5 "")`, `sys.argv` index 5 being the
fifth positional argument), and with the flag off the iteration is only the
warning log line, no upload. -/
theorem reconcile_missing_upload_iff_flag
    (bucket_contents : List RemoteObject) (raw : String)
    (outcomes : String → UploadOutcome) (sizeOf : String → Nat)
    (d file : String)
    (hfound : bucket_contents.filter (fun f => f.name == file) = []) :
    ((reconcileStep bucket_contents (parseUploadMissingFiles raw) outcomes
        sizeOf d file).2.1 =
      if raw.toLower = "true"
      then [⟨pathJoin d file, baseName (pathJoin d file)⟩] else []) ∧
    (parseUploadMissingFiles raw = true ↔ raw.toLower = "true") ∧
    (raw.toLower ≠ "true" →
      reconcileStep bucket_contents (parseUploadMissingFiles raw) outcomes
          sizeOf d file =
        ([⟨.warning, "Local file not found in S3"⟩], [], .ok ())) := by
  have hflag : parseUploadMissingFiles raw = true ↔ raw.toLower = "true" := by
    rw [parseUploadMissingFiles]
    exact beq_iff_eq
  refine ⟨?_, hflag, ?_⟩
  · rw [reconcileStep]
    simp only [hfound]
    by_cases ht : raw.toLower = "true"
    · rw [if_pos (hflag.mpr ht), if_pos ht]
      rw [show (upload_file (pathJoin d file) (outcomes (pathJoin d file))) =
        ((upload_file (pathJoin d file) (outcomes (pathJoin d file))).1,
         (upload_file (pathJoin d file) (outcomes (pathJoin d file))).2.1,
         (upload_file (pathJoin d file) (outcomes (pathJoin d file))).2.2) from rfl]
      simp only [upload_file_call]
    · rw [if_neg (fun hc => ht (hflag.mp hc)), if_neg ht]
  · intro ht
    rw [reconcileStep]
    simp only [hfound]
    rw [if_neg (fun hc => ht (hflag.mp hc))]

/-- Witness for C3: with flag argument `"TRUE"` the missing `a.tar` is
uploaded; with `"false"` (checked through the same theorem at a second
input) it is skipped with a warning. -/
theorem reconcile_missing_upload_iff_flag_witness :
    ((reconcileStep [] (parseUploadMissingFiles "TRUE") (fun _ => .success)
        (fun _ => 100) "/backup" "a.tar").2.1 =
      if ("TRUE" : String).toLower = "true"
      then [⟨pathJoin "/backup" "a.tar", baseName (pathJoin "/backup" "a.tar")⟩]
      else []) ∧
    (("false" : String).toLower ≠ "true" →
      reconcileStep [] (parseUploadMissingFiles "false") (fun _ => .success)
          (fun _ => 100) "/backup" "a.tar" =
        ([⟨.warning, "Local file not found in S3"⟩], [], .ok ())) :=
  ⟨(reconcile_missing_upload_iff_flag [] "TRUE" (fun _ => .success)
      (fun _ => 100) "/backup" "a.tar" rfl).1,
   (reconcile_missing_upload_iff_flag [] "false" (fun _ => .success)
      (fun _ => 100) "/backup" "a.tar" rfl).2.2⟩

/-!
## Claims about `list_bucket` truncation handling
-/

/-- Counterexample to C5: on a concrete truncated listing response,
`list_bucket` does not fail; it returns the partial `Contents` set to the
caller (`Except.ok`, never `Except.error`). -/
theorem truncated_listing_returns_partial_set :
    (list_bucket (.ok ⟨true, [⟨"a.tar", 100, 0⟩]⟩)).2 =
        .ok [⟨"a.tar", 100, 0⟩] ∧
    (list_bucket (.ok ⟨true, [⟨"a.tar", 100, 0⟩]⟩)).2 ≠ .error () := by
  constructor
  · rfl
  · intro h
    simp [list_bucket] at h

/-- C5 (amended).  On a truncated listing response, `list_bucket` logs one
warning naming the unimplemented scenario and still returns the partial
mapped `Contents` list to the caller; it does not raise. -/
theorem truncated_listing_warns_and_proceeds (r : S3ListResponse)
    (htrunc : r.isTruncated = true) :
    (list_bucket (.ok r)).1 =
        [⟨.warning, "received truncated results from S3 list object function"⟩] ∧
    (list_bucket (.ok r)).2 =
        .ok (r.contents.map fun o =>
          { name := o.key, size := o.size, last_modified := o.lastModified }) := by
  constructor
  · simp [list_bucket, htrunc]
  · simp [list_bucket, htrunc]

/-- Witness for the amended C5 at a concrete truncated response. -/
theorem truncated_listing_warns_and_proceeds_witness :
    (list_bucket (.ok ⟨true, [⟨"b.tar", 7, 3⟩]⟩)).1 =
        [⟨.warning, "received truncated results from S3 list object function"⟩] ∧
    (list_bucket (.ok ⟨true, [⟨"b.tar", 7, 3⟩]⟩)).2 =
        .ok ((⟨true, [⟨"b.tar", 7, 3⟩]⟩ : S3ListResponse).contents.map fun o =>
          { name := o.key, size := o.size, last_modified := o.lastModified }) :=
  truncated_listing_warns_and_proceeds ⟨true, [⟨"b.tar", 7, 3⟩]⟩ rfl

/-!
## Claims about the watch loop
-/

/-- C6.  A creation event for a path not matching the archive regex (such
as `foo.txt`) is dropped by the dispatch with no poll and no upload, while
a matching path such as `backup.tar` is uploaded exactly once, and only
once the stability poll has signaled stable; while the poll is still
running no upload has been made. -/
theorem watch_event_regex_and_single_upload
    (sizes : Nat → Nat) (o : UploadOutcome) (fuel : Nat) :
    matchesBackupRegex "foo.txt" = false ∧
    dispatchCreated sizes o fuel "foo.txt" = some ([], .ok ()) ∧
    matchesBackupRegex "backup.tar" = true ∧
    (∀ u, stabilityPoll sizes fuel = some u →
      dispatchCreated sizes o fuel "backup.tar" =
        some ([⟨"backup.tar", "backup.tar"⟩], (upload_file "backup.tar" o).2.2)) ∧
    (stabilityPoll sizes fuel = none →
      dispatchCreated sizes o fuel "backup.tar" = none) := by
  refine ⟨rfl, ?_, rfl, ?_, ?_⟩
  · rw [dispatchCreated]
    rw [if_neg (by intro h; exact Bool.false_ne_true (by exact h))]
  · intro u hu
    rw [dispatchCreated,
      if_pos (show matchesBackupRegex "backup.tar" = true from rfl), hu]
    have hb : baseName "backup.tar" = "backup.tar" := by decide
    cases o <;> simp [upload_file, hb]
  · intro hnone
    rw [dispatchCreated,
      if_pos (show matchesBackupRegex "backup.tar" = true from rfl), hnone]

/-- Witness for C6: the sequence `0,1,2,3,3,...` stabilizes (poll signals
at time 4 with fuel 5), so `backup.tar` is uploaded once; with the strictly
growing sequence `id` and fuel 7 the poll has not signaled and no upload
has been made; `foo.txt` is always dropped. -/
theorem watch_event_regex_and_single_upload_witness :
    dispatchCreated (fun k => min k 3) .success 5 "foo.txt" = some ([], .ok ()) ∧
    dispatchCreated (fun k => min k 3) .success 5 "backup.tar" =
      some ([⟨"backup.tar", "backup.tar"⟩],
        (upload_file "backup.tar" .success).2.2) ∧
    dispatchCreated (fun k => k) .success 7 "backup.tar" = none :=
  ⟨(watch_event_regex_and_single_upload (fun k => min k 3) .success 5).2.1,
   (watch_event_regex_and_single_upload (fun k => min k 3) .success 5).2.2.2.1
     4 (by rfl),
   (watch_event_regex_and_single_upload (fun k => k) .success 7).2.2.2.2
     (by rfl)⟩

/-!
## Claims about upload-failure handling
-/

/-- One reconciliation iteration lets no exception escape (as long as the
boto3 call fails only with the caught `S3UploadFailedError`), and the S3
calls it makes are the same as in a run where every upload succeeds. -/
theorem reconcileStep_ok_and_calls
    (bucket_contents : List RemoteObject) (upload_missing_files : Bool)
    (outcomes : String → UploadOutcome) (sizeOf : String → Nat)
    (d file : String)
    (h : outcomes (pathJoin d file) ≠ .otherException) :
    (reconcileStep bucket_contents upload_missing_files outcomes sizeOf d
        file).2.2 = .ok () ∧
    (reconcileStep bucket_contents upload_missing_files outcomes sizeOf d
        file).2.1 =
      (reconcileStep bucket_contents upload_missing_files (fun _ => .success)
        sizeOf d file).2.1 := by
  rcases ho : outcomes (pathJoin d file) with _ | _ | _
  · rcases hf : bucket_contents.filter (fun f => f.name == file) with _ | ⟨fst, rest⟩
    · by_cases humf : upload_missing_files = true <;>
        simp [reconcileStep, hf, ho, upload_file, humf]
    · by_cases hs : sizeOf (pathJoin d file) = fst.size <;>
        simp [reconcileStep, hf, ho, upload_file, hs]
  · rcases hf : bucket_contents.filter (fun f => f.name == file) with _ | ⟨fst, rest⟩
    · by_cases humf : upload_missing_files = true <;>
        simp [reconcileStep, hf, ho, upload_file, humf]
    · by_cases hs : sizeOf (pathJoin d file) = fst.size <;>
        simp [reconcileStep, hf, ho, upload_file, hs]
  · exact absurd ho h

/-- C7.  A provider-level upload failure is non-fatal: `upload_file` on the
caught `S3UploadFailedError` returns (no exception in its result) having
logged the failure at error level, and the reconciliation loop run with any
upload outcomes free of unanticipated exceptions finishes every iteration
(`Except.ok`) and makes exactly the S3 calls of an all-success run — no
call is retried, no later file is dropped. -/
theorem upload_failure_is_nonfatal :
    (∀ file : String,
      (upload_file file .s3UploadFailedError).2.2 = .ok () ∧
      (⟨.error, "S3 upload error"⟩ : LogEvent) ∈
        (upload_file file .s3UploadFailedError).1) ∧
    (∀ (bucket_contents : List RemoteObject) (upload_missing_files : Bool)
        (outcomes : String → UploadOutcome) (sizeOf : String → Nat)
        (d : String) (files : List String),
      (∀ p, outcomes p ≠ .otherException) →
      (reconcileAll bucket_contents upload_missing_files outcomes sizeOf d
          files).2.2 = .ok () ∧
      (reconcileAll bucket_contents upload_missing_files outcomes sizeOf d
          files).2.1 =
        (reconcileAll bucket_contents upload_missing_files (fun _ => .success)
          sizeOf d files).2.1) := by
  constructor
  · intro file
    exact ⟨rfl, by simp [upload_file]⟩
  · intro bucket_contents upload_missing_files outcomes sizeOf d files h
    induction files with
    | nil => exact ⟨rfl, rfl⟩
    | cons f rest ih =>
        obtain ⟨hexc, hcalls⟩ := reconcileStep_ok_and_calls bucket_contents
          upload_missing_files outcomes sizeOf d f (h _)
        obtain ⟨hexcs, _⟩ := reconcileStep_ok_and_calls bucket_contents
          upload_missing_files (fun _ => .success) sizeOf d f (by simp)
        rcases e1 : reconcileStep bucket_contents upload_missing_files
          outcomes sizeOf d f with ⟨l, c, exc⟩
        rcases e2 : reconcileStep bucket_contents upload_missing_files
          (fun _ => .success) sizeOf d f with ⟨ls, cs, excs⟩
        rw [e1] at hexc hcalls
        rw [e2] at hexcs hcalls
        simp only at hexc hcalls hexcs
        subst hexc hexcs hcalls
        rcases r1 : reconcileAll bucket_contents upload_missing_files
          outcomes sizeOf d rest with ⟨l2, c2, exc2⟩
        rcases r2 : reconcileAll bucket_contents upload_missing_files
          (fun _ => .success) sizeOf d rest with ⟨l2s, c2s, exc2s⟩
        rw [r1, r2] at ih
        simp only at ih
        rw [reconcileAll, reconcileAll, e1, e2, r1, r2]
        simp only
        exact ⟨ih.1, by rw [ih.2]⟩

/-- Witness for C7: with every upload failing with `S3UploadFailedError`,
reconciling `["a.tar", "b.tar"]` (both missing remotely, flag on) finishes
with no exception and attempts the same two uploads as the all-success run. -/
theorem upload_failure_is_nonfatal_witness :
    ((upload_file "/backup/a.tar" .s3UploadFailedError).2.2 = .ok () ∧
      (⟨.error, "S3 upload error"⟩ : LogEvent) ∈
        (upload_file "/backup/a.tar" .s3UploadFailedError).1) ∧
    ((reconcileAll [] true (fun _ => .s3UploadFailedError) (fun _ => 50)
        "/backup" ["a.tar", "b.tar"]).2.2 = .ok () ∧
      (reconcileAll [] true (fun _ => .s3UploadFailedError) (fun _ => 50)
          "/backup" ["a.tar", "b.tar"]).2.1 =
        (reconcileAll [] true (fun _ => .success) (fun _ => 50)
          "/backup" ["a.tar", "b.tar"]).2.1) :=
  ⟨upload_failure_is_nonfatal.1 "/backup/a.tar",
   upload_failure_is_nonfatal.2 [] true (fun _ => .s3UploadFailedError)
     (fun _ => 50) "/backup" ["a.tar", "b.tar"]
     (fun _ h => UploadOutcome.noConfusion h)⟩

/-!
## Claims about the process driver
-/

/-- C8.  Each fatal startup condition keeps the pipeline from running: a
wrong `sys.argv` count (any length other than six: script name plus five
positional arguments) only logs critical and falls through with no exit
code; a failed bucket listing ends in `sys.exit(1)` before any reconcile
upload or watch subscription (only the `.pipeline` outcome carries those);
a missing monitor path only logs critical and falls through. -/
theorem startup_fatal_conditions (env : Env) :
    (env.argv.length ≠ 6 →
      amazonS3BackupMain env =
        ([⟨.critical, "Incorrect number of command line arguments provided"⟩],
         .fellThrough)) ∧
    (env.argv.length = 6 → env.monitorPathExists = true →
      env.listResponse = .error () →
      (amazonS3BackupMain env).2 = .exitCode 1) ∧
    (env.argv.length = 6 → env.monitorPathExists = false →
      amazonS3BackupMain env =
        ([⟨.critical, "monitor_path does not exist"⟩], .fellThrough)) := by
  refine ⟨?_, ?_, ?_⟩
  · intro h
    rw [amazonS3BackupMain, if_pos h]
  · intro hlen hex hresp
    rw [amazonS3BackupMain, if_neg (by omega)]
    simp only [hex, if_pos, hresp, list_bucket]
  · intro hlen hex
    rw [amazonS3BackupMain, if_neg (by omega)]
    simp only [hex]
    rw [if_neg (by simp)]

/-- Witness for C8 at three concrete environments: empty `argv`; six
arguments with an inaccessible bucket; six arguments with a missing
monitor path. -/
theorem startup_fatal_conditions_witness :
    (amazonS3BackupMain ⟨[], true, .ok ⟨false, []⟩, [], fun _ => 0,
        fun _ => .success⟩ =
      ([⟨.critical, "Incorrect number of command line arguments provided"⟩],
       .fellThrough)) ∧
    ((amazonS3BackupMain ⟨["s", "/backup", "bkt", "us-east-1", "standard",
        "true"], true, .error (), [], fun _ => 0, fun _ => .success⟩).2 =
      .exitCode 1) ∧
    (amazonS3BackupMain ⟨["s", "/backup", "bkt", "us-east-1", "standard",
        "true"], false, .ok ⟨false, []⟩, [], fun _ => 0, fun _ => .success⟩ =
      ([⟨.critical, "monitor_path does not exist"⟩], .fellThrough)) :=
  ⟨(startup_fatal_conditions _).1 (by decide),
   (startup_fatal_conditions _).2.1 rfl rfl rfl,
   (startup_fatal_conditions _).2.2 rfl rfl⟩

/-- C9.  The eligibility asymmetry: the reconciler enumeration keeps every
immediate `is_file()` entry of the monitored directory whatever its name,
while the watch subscription is registered with `recursive=True` and its
handler uploads only paths matching the `.tar` regex (a non-matching
creation event is dropped with no poll and no upload). -/
theorem reconciler_watch_eligibility_asymmetry :
    (∀ (entries : List DirEntry) (e : DirEntry), e ∈ entries →
      e.isFile = true → e.name ∈ localFilesOf entries) ∧
    (∀ monitor_path, (FileWatcher.schedule monitor_path).recursive = true) ∧
    (∀ (sizes : Nat → Nat) (o : UploadOutcome) (fuel : Nat) (p : String),
      matchesBackupRegex p = false →
      dispatchCreated sizes o fuel p = some ([], .ok ())) := by
  refine ⟨?_, fun _ => rfl, ?_⟩
  · intro entries e he hf
    exact List.mem_map_of_mem _ (List.mem_filter.mpr ⟨he, hf⟩)
  · intro sizes o fuel p hm
    rw [dispatchCreated, if_neg (by simp [hm])]

/-- Witness for C9: the non-archive regular file `notes.txt` is part of the
reconciler enumeration even though it does not match the watch regex, the
subscription on `/backup` is recursive, and a creation event for `notes.txt`
triggers no upload. -/
theorem reconciler_watch_eligibility_asymmetry_witness :
    ("notes.txt" ∈ localFilesOf [⟨"notes.txt", true⟩]) ∧
    (FileWatcher.schedule "/backup").recursive = true ∧
    dispatchCreated (fun k => k) .success 3 "notes.txt" = some ([], .ok ()) :=
  ⟨reconciler_watch_eligibility_asymmetry.1 [⟨"notes.txt", true⟩]
      ⟨"notes.txt", true⟩ (by simp) rfl,
   reconciler_watch_eligibility_asymmetry.2.1 "/backup",
   reconciler_watch_eligibility_asymmetry.2.2 (fun k => k) .success 3
     "notes.txt" (by decide)⟩

/-!
## Claim about the Supervisor API error path
-/

/-- C10.  When the HTTP request completes but `response.ok` is false, the
internal helper returns `None` (`.ok none`: no exception, no decoded JSON),
and each public method then invokes `.get` on that `None`, which raises
`AttributeError` — not `SupervisorAPIError`, and no default value is
returned. -/
theorem nonok_response_raises_attribute_error (r : HttpResult)
    (h : r.ok = false) :
    SupervisorAPI.apiGet (.response r) = .ok none ∧
    SupervisorAPI.get_snapshots (.response r) = .error .attributeError ∧
    SupervisorAPI.get_snapshot (.response r) = .error .attributeError ∧
    SupervisorAPI.remove_snapshot (.response r) = .error .attributeError ∧
    PyExc.attributeError ≠ PyExc.supervisorAPIError := by
  have hg : SupervisorAPI.apiGet (.response r) = .ok none := by
    rw [SupervisorAPI.apiGet]
    rw [if_neg (by simp [h])]
  refine ⟨hg, ?_, ?_, ?_, by decide⟩
  · rw [SupervisorAPI.get_snapshots, hg]
    rfl
  · rw [SupervisorAPI.get_snapshot, hg]
    rfl
  · rw [SupervisorAPI.remove_snapshot, SupervisorAPI.apiPost, hg]
    rfl

/-- Witness for C10 at a concrete failed response (status not ok, empty
body). -/
theorem nonok_response_raises_attribute_error_witness :
    SupervisorAPI.apiGet (.response ⟨false, none⟩) = .ok none ∧
    SupervisorAPI.get_snapshots (.response ⟨false, none⟩) =
      .error .attributeError ∧
    SupervisorAPI.get_snapshot (.response ⟨false, none⟩) =
      .error .attributeError ∧
    SupervisorAPI.remove_snapshot (.response ⟨false, none⟩) =
      .error .attributeError ∧
    PyExc.attributeError ≠ PyExc.supervisorAPIError :=
  nonok_response_raises_attribute_error ⟨false, none⟩ rfl
